import Mathlib

/-!
Verification development for the expense_tracking repository.

The repository implements a React/TypeScript single-page application.  The
definitions below are a shallow embedding of the code that the checked claims
are about:

* `FileService` — `src/frontend/src/services/fileService.ts` (`validateFile`,
  `formatFileSize`, the `Document` interface, the `deleteDocument` error
  wrapping).
* `UseDocuments` — the `useDocuments` hook (document list state, load /
  refresh / filter / delete operations).
* `VerificationPage` — `src/frontend/src/pages/Verification.tsx` (the mocked
  verification queue and its approve / reject handlers).
* `ExpensesPage` — the mocked expense records of
  `src/frontend/src/pages/Expenses.tsx`.
* `UploadPage` — the mocked upload queue of
  `src/frontend/src/pages/Upload.tsx`.
* `Pipeline` — the document-processing state routing, which is not
  implemented in the repository; it is modelled from the specification where
  a claim is decided by that missing backend.

JavaScript numbers are embedded as `ℚ` (amounts, confidences) or `ℤ`/`ℕ`
(identifiers, byte counts); the floating-point `Math.log`-based unit index of
`formatFileSize` is embedded as the exact base-1024 logarithm `Nat.log`.
Thrown JavaScript `Error` values are embedded as `Except String` /
`Option String` results carrying the error message.
-/

namespace ExpenseTracking

/-! ## Data model shared by the pages and services -/

/-- A line item of the extracted data shown on the verification page
(`Verification.tsx`, `extractedData.items`). -/
structure LineItem where
  name : String
  quantity : String
  price : ℚ
deriving DecidableEq

/-- The dynamic `extractedData` / `formData` object of `Verification.tsx`.
Receipt submissions use `merchant`/`amount`/`date`/`category`/`items`;
payslip submissions use `employer`/`grossPay`/`netPay`/`payPeriod`/
`deductions`.  Absent fields of the JavaScript object are `none`/`[]`. -/
structure ExtractedData where
  merchant : Option String := none
  amount : Option ℚ := none
  date : Option String := none
  category : Option String := none
  items : List LineItem := []
  employer : Option String := none
  grossPay : Option ℚ := none
  netPay : Option ℚ := none
  payPeriod : Option String := none
  deductions : List (String × ℚ) := []
deriving DecidableEq

/-- An entry of the hard-coded `pendingItems` array of `Verification.tsx`. -/
structure PendingItem where
  id : ℤ
  filename : String
  type : String
  confidence : ℚ
  extractedData : ExtractedData
deriving DecidableEq

/-- An entry of the mocked `expenses` array of `Expenses.tsx`. -/
structure ExpenseRecord where
  id : ℤ
  date : String
  merchant : String
  amount : ℚ
  category : String
  subcategory : String
  description : String
  verified : Bool
  hasReceipt : Bool
deriving DecidableEq

/-- An entry of the mocked `uploadedFiles` array of `Upload.tsx`. -/
structure UploadedFile where
  id : ℤ
  name : String
  type : String
  status : String
  confidence : Option ℚ
  uploadedAt : String
  extractedAmount : Option ℚ
deriving DecidableEq

/-- The `Document` interface of `fileService.ts`. -/
structure Document where
  id : ℤ
  user_id : ℤ
  type : String
  original_filename : String
  file_size : ℕ
  mime_type : String
  processing_status : String
  ocr_confidence : Option ℚ
  processed_at : Option String
  uploaded_at : String
deriving DecidableEq

/-- The `DocumentListResponse` interface of `fileService.ts`. -/
structure DocumentListResponse where
  documents : List Document
  total : ℤ
deriving DecidableEq

end ExpenseTracking

namespace ExpenseTracking.FileService

/-- The relevant data of a browser `File` value: its `size` and MIME `type`. -/
structure JSFile where
  size : ℕ
  type : String
deriving DecidableEq

/-- The result object of `FileService.validateFile`. -/
structure ValidationResult where
  valid : Bool
  error : Option String := none
deriving DecidableEq

/-- `MAX_FILE_SIZE = 10 * 1024 * 1024` from `validateFile`. -/
def MAX_FILE_SIZE : ℕ := 10 * 1024 * 1024

/-- `ALLOWED_TYPES` from `validateFile`. -/
def ALLOWED_TYPES : List String :=
  ["image/jpeg", "image/jpg", "image/png", "application/pdf"]

/-- `FileService.validateFile`: size check first, then MIME-type check. -/
def validateFile (file : JSFile) : ValidationResult :=
  if MAX_FILE_SIZE < file.size then
    { valid := false, error := some "File size exceeds 10MB limit" }
  else if file.type ∉ ALLOWED_TYPES then
    { valid := false
      error := some "File type not supported. Please use JPG, PNG, or PDF files." }
  else
    { valid := true }

/-- The `sizes` unit array of `FileService.formatFileSize`. -/
def sizes : List String := ["Bytes", "KB", "MB", "GB"]

/-- The unit index `i = Math.floor(Math.log(bytes) / Math.log(1024))` of
`formatFileSize`, for a positive byte count: the floor of the base-1024
logarithm, embedded exactly as `Nat.log`. -/
def fileSizeUnitIndex (bytes : ℕ) : ℕ := Nat.log 1024 bytes

/-- `Math.round(q * 100) / 100` from `formatFileSize` (two-decimal rounding;
`Math.round` and Mathlib's `round` both round half up). -/
def roundTo2 (q : ℚ) : ℚ := (round (q * 100) : ℤ) / 100

/-- `FileService.formatFileSize`.  Returns the displayed numeric value and
the unit suffix.  A negative input makes the JavaScript index `NaN` and a
count of `1024^4` or more makes it fall outside the `sizes` array, so no
valid unit suffix is produced: both are embedded as `none`. -/
def formatFileSize (bytes : ℤ) : Option (ℚ × String) :=
  if bytes = 0 then some (0, "Bytes")
  else if bytes < 0 then none
  else
    let i := fileSizeUnitIndex bytes.toNat
    (sizes[i]?).map (fun u => (roundTo2 ((bytes : ℚ) / 1024 ^ i), u))

/-- `FileService.deleteDocument` error handling: an axios failure is rethrown
as an `Error` whose message is the server `detail`, or the fallback message
when no detail is available. -/
def deleteDocumentWrap (axiosFailure : Option String) : Except String Unit :=
  Except.error (axiosFailure.getD "Failed to delete document")

end ExpenseTracking.FileService

namespace ExpenseTracking.UseDocuments

open ExpenseTracking

/-- The `type` filter argument of the `useDocuments` operations
(`'receipt' | 'payslip'`, `none` meaning `'all'`). -/
inductive DocType where
  | receipt
  | payslip
deriving DecidableEq

/-- The state held by the `useDocuments` hook (`useState` cells). -/
structure DocsState where
  documents : List Document
  loading : Bool
  errorMsg : Option String
  total : ℤ
  currentFilter : Option DocType
deriving DecidableEq

/-- The initial hook state: empty list, `loading = true`, no error,
`total = 0`, filter `'all'`. -/
def initialDocsState : DocsState :=
  { documents := [], loading := true, errorMsg := none, total := 0,
    currentFilter := none }

/-- Net effect of `loadDocuments` once the `FileService.getDocuments` call
settles: on success the documents and total are taken from the response and
the error is cleared; on failure only the error message is set.  Either way
`loading` ends up `false`. -/
def loadDocuments (s : DocsState) (resp : Except String DocumentListResponse) :
    DocsState :=
  match resp with
  | .ok r =>
      { s with documents := r.documents, total := r.total, errorMsg := none,
               loading := false }
  | .error e => { s with errorMsg := some e, loading := false }

/-- Net effect of `deleteDocument` once `FileService.deleteDocument` settles.
On success the document is filtered out of the local list and `total` is
decremented by one (unconditionally).  On failure the hook rethrows an
`Error` carrying the failure message (second component) and changes nothing.
-/
def deleteDocument (s : DocsState) (documentId : ℤ)
    (svc : Except String Unit) : DocsState × Option String :=
  match svc with
  | .ok _ =>
      ({ s with documents := s.documents.filter (fun doc => doc.id != documentId),
                total := s.total - 1 }, none)
  | .error e => (s, some e)

/-- One observable operation of the hook, carrying the settled result of the
underlying service call it makes. -/
inductive DocsOp where
  | load (resp : Except String DocumentListResponse)
  | filterByType (t : Option DocType) (resp : Except String DocumentListResponse)
  | delete (documentId : ℤ) (svc : Except String Unit)

/-- State transition of a single hook operation.  `load` covers both the
initial load and `refresh` (which re-issues `loadDocuments` with the current
filter); `filterByType` additionally stores the new filter before loading. -/
def docsStep (s : DocsState) : DocsOp → DocsState
  | .load resp => loadDocuments s resp
  | .filterByType t resp => loadDocuments { s with currentFilter := t } resp
  | .delete documentId svc => (deleteDocument s documentId svc).1

/-- Run a sequence of hook operations from a state. -/
def runDocs (s : DocsState) : List DocsOp → DocsState
  | [] => s
  | op :: ops => runDocs (docsStep s op) ops

/-- A list response is consistent when the reported `total` counts the
returned documents and the returned ids are distinct. -/
def respWF (r : DocumentListResponse) : Prop :=
  r.total = (r.documents.length : ℤ) ∧ (r.documents.map (·.id)).Nodup

instance (r : DocumentListResponse) : Decidable (respWF r) := by
  unfold respWF; infer_instance

/-- Side conditions under which an operation keeps the `total` honest: loads
return consistent responses, and a successful delete targets an id that is
present in the current list. -/
def opOK (s : DocsState) : DocsOp → Prop
  | .load (.ok r) => respWF r
  | .load (.error _) => True
  | .filterByType _ (.ok r) => respWF r
  | .filterByType _ (.error _) => True
  | .delete documentId (.ok _) => documentId ∈ s.documents.map (·.id)
  | .delete _ (.error _) => True

instance (s : DocsState) (op : DocsOp) : Decidable (opOK s op) := by
  cases op with
  | load resp => cases resp <;> (unfold opOK; infer_instance)
  | filterByType t resp => cases resp <;> (unfold opOK; infer_instance)
  | delete documentId svc => cases svc <;> (unfold opOK; infer_instance)

/-- A trace of operations satisfying the side conditions along the way. -/
def goodTrace : DocsState → List DocsOp → Prop
  | _, [] => True
  | s, op :: ops => opOK s op ∧ goodTrace (docsStep s op) ops

def goodTraceDecidable :
    (ops : List DocsOp) → (s : DocsState) → Decidable (goodTrace s ops)
  | [], _ => .isTrue trivial
  | op :: ops, s =>
      @instDecidableAnd _ _ inferInstance (goodTraceDecidable ops (docsStep s op))

instance (s : DocsState) (ops : List DocsOp) : Decidable (goodTrace s ops) :=
  goodTraceDecidable ops s

end ExpenseTracking.UseDocuments


namespace ExpenseTracking.VerificationPage

open ExpenseTracking

/-- First entry of the hard-coded `pendingItems` array of `Verification.tsx`
(`grocery_receipt_20250806.jpg`, confidence 87). -/
def groceryPendingItem : PendingItem :=
  { id := 1, filename := "grocery_receipt_20250806.jpg", type := "receipt",
    confidence := 87,
    extractedData :=
      { merchant := some "Whole Foods Market", amount := some 67.45,
        date := some "2025-08-06", category := some "Groceries",
        items :=
          [ { name := "Organic Bananas", quantity := "2 lbs", price := 3.98 },
            { name := "Almond Milk", quantity := "1", price := 4.99 },
            { name := "Chicken Breast", quantity := "1.5 lbs", price := 12.48 } ] } }

/-- Second entry of `pendingItems` (`gas_station_receipt.jpg`,
confidence 75). -/
def gasPendingItem : PendingItem :=
  { id := 2, filename := "gas_station_receipt.jpg", type := "receipt",
    confidence := 75,
    extractedData :=
      { merchant := some "Shell Gas Station", amount := some 45.20,
        date := some "2025-08-05", category := some "Transportation",
        items :=
          [ { name := "Regular Gasoline", quantity := "12.5 gal", price := 45.20 } ] } }

/-- Third entry of `pendingItems` (`payslip_july_2025.pdf`, confidence 92). -/
def payslipPendingItem : PendingItem :=
  { id := 3, filename := "payslip_july_2025.pdf", type := "payslip",
    confidence := 92,
    extractedData :=
      { employer := some "Tech Corp Inc.", grossPay := some 3500.00,
        netPay := some 2650.00, payPeriod := some "July 1-31, 2025",
        deductions :=
          [ ("Federal Tax", 420.00), ("State Tax", 210.00),
            ("Social Security", 217.00), ("Medicare", 50.75),
            ("Health Insurance", 120.00) ] } }

/-- The hard-coded `pendingItems` array of `Verification.tsx`, in source
order: confidences 87, 75, 92 (percent scale). -/
def pendingItems : List PendingItem :=
  [groceryPendingItem, gasPendingItem, payslipPendingItem]

/-- The component state of `Verification.tsx`: the `currentItem` index and
the editable `formData`. -/
structure VerifState where
  currentItem : ℕ
  formData : ExtractedData
deriving DecidableEq

/-- The initial component state: item 0 with its extracted data (or `{}` if
the list were empty). -/
def initialVerifState : VerifState :=
  { currentItem := 0
    formData := ((pendingItems[0]?).map (·.extractedData)).getD {} }

/-- `handleNext`: advance `currentItem` cyclically and reset `formData` to
the next item's extracted data (`{}` when absent). -/
def handleNextState (s : VerifState) : VerifState :=
  let idx := (s.currentItem + 1) % pendingItems.length
  { currentItem := idx
    formData := ((pendingItems[idx]?).map (·.extractedData)).getD {} }

/-- `handlePrevious`: step `currentItem` back cyclically (the JavaScript
`(prev - 1 + length) % length`) and reset `formData` accordingly. -/
def handlePreviousState (s : VerifState) : VerifState :=
  let idx := (s.currentItem + pendingItems.length - 1) % pendingItems.length
  { currentItem := idx
    formData := ((pendingItems[idx]?).map (·.extractedData)).getD {} }

/-- Possible outcomes of a verification submission in the specification's
error taxonomy. -/
inductive SubmitOutcome where
  | ok
  | concurrencyConflict
  | validationError
deriving DecidableEq

/-- Result of an approve / reject submission: the successor component state,
the outcome signalled to the caller, and the financial record materialized by
the submission, if any. -/
structure SubmitResult where
  state : VerifState
  outcome : SubmitOutcome
  materialized : Option ExtractedData
deriving DecidableEq

/-- `handleApprove` of `Verification.tsx`: it logs the form data to the
console and advances to the next item.  It performs no status check, no
field validation and no record creation, and it never signals an error. -/
def handleApprove (s : VerifState) : SubmitResult :=
  { state := handleNextState s, outcome := .ok, materialized := none }

/-- `handleReject` of `Verification.tsx`: it logs the current id and
advances to the next item; like `handleApprove` it never signals an error. -/
def handleReject (s : VerifState) : SubmitResult :=
  { state := handleNextState s, outcome := .ok, materialized := none }

end ExpenseTracking.VerificationPage

namespace ExpenseTracking.ExpensesPage

open ExpenseTracking

/-- First entry of the mocked `expenses` array of `Expenses.tsx`. -/
def wholeFoodsExpense : ExpenseRecord :=
  { id := 1, date := "2025-08-06", merchant := "Whole Foods Market",
    amount := 67.45, category := "Groceries", subcategory := "Food",
    description := "Weekly grocery shopping", verified := true,
    hasReceipt := true }

/-- Second entry of `expenses`: a receipt-backed record with
`verified := false`. -/
def shellExpense : ExpenseRecord :=
  { id := 2, date := "2025-08-05", merchant := "Shell Gas Station",
    amount := 45.20, category := "Transportation", subcategory := "Fuel",
    description := "Gas fill-up", verified := false, hasReceipt := true }

/-- Third entry of `expenses`. -/
def restaurantExpense : ExpenseRecord :=
  { id := 3, date := "2025-08-04", merchant := "Local Restaurant",
    amount := 28.90, category := "Dining", subcategory := "Restaurants",
    description := "Lunch with colleagues", verified := true,
    hasReceipt := true }

/-- Fourth entry of `expenses`: a manual entry without a receipt. -/
def parkingExpense : ExpenseRecord :=
  { id := 4, date := "2025-08-03", merchant := "Manual Entry",
    amount := 12.00, category := "Transportation", subcategory := "Parking",
    description := "Downtown parking fee", verified := true,
    hasReceipt := false }

/-- The mocked `expenses` array of `Expenses.tsx`, in source order. -/
def expenses : List ExpenseRecord :=
  [wholeFoodsExpense, shellExpense, restaurantExpense, parkingExpense]

end ExpenseTracking.ExpensesPage

namespace ExpenseTracking.UploadPage

open ExpenseTracking

/-- First entry of the mocked `uploadedFiles` array of `Upload.tsx`. -/
def groceryUpload : UploadedFile :=
  { id := 1, name := "grocery_receipt_20250806.jpg", type := "receipt",
    status := "completed", confidence := some 95,
    uploadedAt := "2025-08-06 10:30", extractedAmount := some 67.45 }

/-- Second entry of `uploadedFiles`: still processing, confidence null. -/
def gasUpload : UploadedFile :=
  { id := 2, name := "gas_station_receipt.jpg", type := "receipt",
    status := "processing", confidence := none,
    uploadedAt := "2025-08-06 10:25", extractedAmount := none }

/-- Third entry of `uploadedFiles`. -/
def payslipUpload : UploadedFile :=
  { id := 3, name := "payslip_july_2025.pdf", type := "payslip",
    status := "needs_review", confidence := some 75,
    uploadedAt := "2025-08-06 09:15", extractedAmount := some 3500.00 }

/-- The mocked `uploadedFiles` array of `Upload.tsx`, in source order. -/
def uploadedFiles : List UploadedFile :=
  [groceryUpload, gasUpload, payslipUpload]

/-- The rendering of a stored document's confidence in the live upload page
(the caller of the `useDocuments` hook):
`Math.round(document.ocr_confidence * 100)`, i.e. the 0-1 value scaled to a
percentage. -/
def displayOcrConfidencePercent (c : ℚ) : ℤ := round (c * 100)

end ExpenseTracking.UploadPage

namespace ExpenseTracking.Pipeline

/-- Modelled from the spec: the processing states of the Document state
machine of the Pipeline Orchestrator (§4.1), which is not implemented in the
repository (the planning documents list it as unbuilt backend work). -/
inductive DocStatus where
  | pending
  | extracting
  | needsReextraction
  | pendingVerification
  | verified
  | rejected
  | failed
deriving DecidableEq

/-- Modelled from the spec: the confidence routing applied when extraction
completes (§4.1, §7).  Below the reupload threshold the Document is routed to
`needs_reextraction`; otherwise it enters `pending_verification`, flagged
low-confidence when the confidence is below the auto-trust threshold.  The
returned Boolean is the low-confidence flag. -/
def routeAfterExtraction (reuploadThreshold autoTrustThreshold conf : ℚ) :
    DocStatus × Bool :=
  if conf < reuploadThreshold then (.needsReextraction, false)
  else (.pendingVerification, conf < autoTrustThreshold)

end ExpenseTracking.Pipeline

namespace ExpenseTracking

open FileService

/-- Helper: an element read from a list by `getElem?` is a member. -/
theorem mem_of_getElem?_eq_some {α : Type} {l : List α} {i : ℕ} {a : α}
    (h : l[i]? = some a) : a ∈ l := by
  have hi : i < l.length := by
    by_contra hc
    rw [List.getElem?_eq_none (by omega)] at h
    exact Option.noConfusion h
  rw [List.getElem?_eq_getElem hi] at h
  cases h
  exact List.getElem_mem hi

/-- C8: `FileService.validateFile` accepts a file exactly when its size is at
most 10485760 bytes and its MIME type is one of the four allowed types;
otherwise it reports `valid := false` with an error message, and when the
size limit is exceeded the size error is returned regardless of the type
check (size precedence). -/
theorem C8_validateFile_characterization (f : JSFile) :
    ((validateFile f).valid = true ↔
      f.size ≤ 10485760 ∧ f.type ∈ ALLOWED_TYPES) ∧
    ((validateFile f).valid = false → ((validateFile f).error).isSome = true) ∧
    (10485760 < f.size →
      (validateFile f).error = some "File size exceeds 10MB limit") := by
  have hmax : MAX_FILE_SIZE = 10485760 := by norm_num [MAX_FILE_SIZE]
  by_cases h1 : MAX_FILE_SIZE < f.size
  · refine ⟨?_, ?_, ?_⟩
    · simp only [validateFile, if_pos h1]
      constructor
      · intro h
        exact Bool.noConfusion h
      · intro hc
        omega
    · intro _
      simp [validateFile, if_pos h1]
    · intro _
      simp [validateFile, if_pos h1]
  · by_cases h2 : f.type ∉ ALLOWED_TYPES
    · refine ⟨?_, ?_, ?_⟩
      · simp only [validateFile, if_neg h1, if_pos h2]
        constructor
        · intro h
          exact Bool.noConfusion h
        · intro hc
          exact absurd hc.2 h2
      · intro _
        simp [validateFile, if_neg h1, if_pos h2]
      · intro hs
        omega
    · have hmem : f.type ∈ ALLOWED_TYPES := not_not.1 h2
      have hva : validateFile f = { valid := true, error := none } := by
        simp [validateFile, if_neg h1, hmem]
      refine ⟨?_, ?_, ?_⟩
      · rw [hva]
        constructor
        · intro _
          exact ⟨by omega, hmem⟩
        · intro _
          rfl
      · rw [hva]
        intro h
        exact Bool.noConfusion h
      · intro hs
        omega

/-- C8 witness: an oversized file of unsupported type is rejected with the
size error. -/
theorem C8_validateFile_witness :
    10485760 < (10485761 : ℕ) ∧
    (validateFile { size := 10485761, type := "text/plain" }).error =
      some "File size exceeds 10MB limit" :=
  ⟨by norm_num,
   (C8_validateFile_characterization { size := 10485761, type := "text/plain" }).2.2
     (by norm_num)⟩

/-- C10: `formatFileSize` maps 0 to `0 Bytes`; for positive byte counts below
`1024 ^ 4` the computed unit index stays below the four-element `sizes` array
bound and the result carries one of the suffixes Bytes, KB, MB, GB; for
counts of `1024 ^ 4` and above, and for negative inputs, the index leaves the
array and no valid unit suffix is produced. -/
theorem C10_formatFileSize_unit_bounds :
    (formatFileSize 0 = some (0, "Bytes")) ∧
    (∀ b : ℤ, 1 ≤ b → b < 1024 ^ 4 →
      fileSizeUnitIndex b.toNat < 4 ∧
      ∃ q u, formatFileSize b = some (q, u) ∧ u ∈ sizes) ∧
    (∀ b : ℤ, 1024 ^ 4 ≤ b → formatFileSize b = none) ∧
    (∀ b : ℤ, b < 0 → formatFileSize b = none) := by
  have hpow : (1024 : ℤ) ^ 4 = 1099511627776 := by norm_num
  have hpowN : (1024 : ℕ) ^ 4 = 1099511627776 := by norm_num
  refine ⟨by norm_num [formatFileSize], ?_, ?_, ?_⟩
  · intro b h1 h2
    have hb0 : ¬ b = 0 := by omega
    have hbneg : ¬ b < 0 := by omega
    have hn : b.toNat ≠ 0 := by omega
    have hlt : b.toNat < 1024 ^ 4 := by omega
    have hlog : fileSizeUnitIndex b.toNat < 4 := by
      unfold fileSizeUnitIndex
      exact (Nat.lt_pow_iff_log_lt (by norm_num) hn).1 hlt
    refine ⟨hlog, ?_⟩
    have hi : fileSizeUnitIndex b.toNat < sizes.length := by
      simpa [sizes] using hlog
    simp only [formatFileSize, if_neg hb0, if_neg hbneg]
    rw [List.getElem?_eq_getElem hi]
    exact ⟨_, _, rfl, List.getElem_mem hi⟩
  · intro b hb
    have hb0 : ¬ b = 0 := by omega
    have hbneg : ¬ b < 0 := by omega
    have hn : b.toNat ≠ 0 := by omega
    have hge : ¬ b.toNat < 1024 ^ 4 := by omega
    have hlog : ¬ fileSizeUnitIndex b.toNat < 4 := by
      unfold fileSizeUnitIndex
      intro hc
      exact hge ((Nat.lt_pow_iff_log_lt (by norm_num) hn).2 hc)
    simp only [formatFileSize, if_neg hb0, if_neg hbneg]
    rw [List.getElem?_eq_none (by simpa [sizes] using hlog)]
    rfl
  · intro b hb
    simp only [formatFileSize, if_neg (by omega : ¬ b = 0), if_pos hb]

/-- C10 witness: 1536 bytes is formatted with unit index 1 as `1.5 KB`. -/
theorem C10_formatFileSize_witness :
    (1 ≤ (1536 : ℤ) ∧ (1536 : ℤ) < 1024 ^ 4) ∧
    (fileSizeUnitIndex (1536 : ℤ).toNat < 4 ∧
      ∃ q u, formatFileSize 1536 = some (q, u) ∧ u ∈ sizes) :=
  ⟨⟨by norm_num, by norm_num⟩,
   C10_formatFileSize_unit_bounds.2.1 1536 (by norm_num) (by norm_num)⟩

end ExpenseTracking

namespace ExpenseTracking

open UseDocuments

/-- Helper: removing one present id from a list with distinct ids shortens it
by exactly one. -/
theorem length_filter_id_ne {l : List Document} {i : ℤ}
    (hnd : (l.map (·.id)).Nodup) (hmem : i ∈ l.map (·.id)) :
    (l.filter (fun d => d.id != i)).length + 1 = l.length := by
  induction l with
  | nil => exact absurd hmem (by simp)
  | cons d tl ih =>
      simp only [List.map_cons, List.nodup_cons] at hnd
      by_cases hd : d.id = i
      · have hni : i ∉ tl.map (·.id) := by
          rw [← hd]
          exact hnd.1
        have hself : tl.filter (fun x => x.id != i) = tl := by
          rw [List.filter_eq_self]
          intro a ha
          simp only [bne_iff_ne, ne_eq]
          intro hc
          exact hni (by simpa [← hc] using List.mem_map_of_mem (·.id) ha)
        simp [List.filter_cons, hd, hself]
      · have hmem' : i ∈ tl.map (·.id) := by
          rcases (by simpa using hmem) with h | h
          · exact absurd h.symm hd
          · simpa using h
        have hrec := ih hnd.2 hmem'
        have hcond : (d.id != i) = true := by simpa [bne_iff_ne] using hd
        rw [List.filter_cons, if_pos hcond, List.length_cons, List.length_cons]
        omega

/-- Helper: filtering preserves distinctness of the mapped ids. -/
theorem nodup_map_id_filter {l : List Document} {i : ℤ}
    (hnd : (l.map (·.id)).Nodup) :
    ((l.filter (fun d => d.id != i)).map (·.id)).Nodup :=
  hnd.sublist ((l.filter_sublist).map (·.id))

/-- The derived-count invariant of the `useDocuments` state: the exposed
`total` counts the exposed `documents`, whose ids are distinct. -/
def docsInv (s : DocsState) : Prop :=
  s.total = (s.documents.length : ℤ) ∧ (s.documents.map (·.id)).Nodup

/-- Helper: a single well-behaved hook operation preserves the derived-count
invariant. -/
theorem docsInv_step (s : DocsState) (op : DocsOp)
    (hinv : docsInv s) (hok : opOK s op) : docsInv (docsStep s op) := by
  cases op with
  | load resp =>
      cases resp with
      | ok r => exact ⟨hok.1, hok.2⟩
      | error e => exact hinv
  | filterByType t resp =>
      cases resp with
      | ok r => exact ⟨hok.1, hok.2⟩
      | error e => exact hinv
  | delete documentId svc =>
      cases svc with
      | ok u =>
          obtain ⟨h1, h2⟩ := hinv
          have hmem : documentId ∈ s.documents.map (·.id) := hok
          have hlen := length_filter_id_ne h2 hmem
          refine ⟨?_, nodup_map_id_filter h2⟩
          show s.total - 1 =
            ((s.documents.filter (fun d => d.id != documentId)).length : ℤ)
          rw [h1]
          omega
      | error e => exact hinv

/-- Helper: the invariant is preserved along any well-behaved trace. -/
theorem docsInv_runDocs (ops : List DocsOp) :
    ∀ s, docsInv s → goodTrace s ops → docsInv (runDocs s ops) := by
  induction ops with
  | nil =>
      intro s h _
      exact h
  | cons op ops ih =>
      intro s h hg
      exact ih _ (docsInv_step s op h hg.1) hg.2

/-- The document used by the hook's own test suite
(`useDocuments.test.tsx`, `mockDocument`). -/
def testReceiptDocument : Document :=
  { id := 1, user_id := 1, type := "receipt",
    original_filename := "test-receipt.jpg", file_size := 1024,
    mime_type := "image/jpeg", processing_status := "pending",
    ocr_confidence := none, processed_at := none,
    uploaded_at := "2023-01-01T00:00:00Z" }

/-- C7 counterexample: after loading one document and then calling
`deleteDocument` with an id that is not in the list (and whose service call
succeeds), the exposed `total` is decremented to 0 while the exposed list
still has one element — the count drifts from the list, so it is a
maintained counter, not a derived read. -/
theorem C7_total_drifts_on_absent_delete :
    (runDocs initialDocsState
        [.load (.ok { documents := [testReceiptDocument], total := 1 }),
         .delete 2 (.ok ())]).total ≠
      ((runDocs initialDocsState
        [.load (.ok { documents := [testReceiptDocument], total := 1 }),
         .delete 2 (.ok ())]).documents.length : ℤ) := by
  decide

/-- C7 amended: the exposed total equals the length of the exposed list for
every sequence of hook operations in which each successful load reports a
total counting its returned (distinct-id) documents and each successful
delete targets an id present in the current list; with a delete of an absent
id the equality fails (see the counterexample). -/
theorem C7_total_derived_on_good_traces (ops : List DocsOp)
    (h : goodTrace initialDocsState ops) :
    (runDocs initialDocsState ops).total =
      ((runDocs initialDocsState ops).documents.length : ℤ) :=
  (docsInv_runDocs ops initialDocsState ⟨rfl, List.nodup_nil⟩ h).1

/-- C7 witness: a concrete well-behaved trace — load one document, delete it,
filter to receipts with an empty consistent response — keeps the total equal
to the list length. -/
theorem C7_total_derived_witness :
    goodTrace initialDocsState
        [.load (.ok { documents := [testReceiptDocument], total := 1 }),
         .delete 1 (.ok ()),
         .filterByType (some .receipt) (.ok { documents := [], total := 0 })] ∧
    (runDocs initialDocsState
        [.load (.ok { documents := [testReceiptDocument], total := 1 }),
         .delete 1 (.ok ()),
         .filterByType (some .receipt) (.ok { documents := [], total := 0 })]).total =
      ((runDocs initialDocsState
        [.load (.ok { documents := [testReceiptDocument], total := 1 }),
         .delete 1 (.ok ()),
         .filterByType (some .receipt) (.ok { documents := [], total := 0 })]).documents.length : ℤ) :=
  ⟨by decide,
   C7_total_derived_on_good_traces
     [.load (.ok { documents := [testReceiptDocument], total := 1 }),
      .delete 1 (.ok ()),
      .filterByType (some .receipt) (.ok { documents := [], total := 0 })]
     (by decide)⟩

/-- C9: when the underlying `FileService.deleteDocument` call fails, the
hook's `deleteDocument` rethrows an error carrying the failure message (the
server detail, or the service fallback message) and applies no partial
effects: the exposed documents list and the exposed total are unchanged. -/
theorem C9_delete_error_no_partial_effects (s : DocsState) (documentId : ℤ)
    (detail : Option String) :
    (deleteDocument s documentId (FileService.deleteDocumentWrap detail)).1.documents
        = s.documents ∧
    (deleteDocument s documentId (FileService.deleteDocumentWrap detail)).1.total
        = s.total ∧
    (deleteDocument s documentId (FileService.deleteDocumentWrap detail)).2
        = some (detail.getD "Failed to delete document") :=
  ⟨rfl, rfl, rfl⟩

end ExpenseTracking

namespace ExpenseTracking

open VerificationPage ExpensesPage UploadPage

/-- C1 counterexample: the implemented expense data contains a
receipt-derived financial record (`Shell Gas Station`, 45.20) with
`verified = false`, while the matching receipt still sits in the verification
queue — a financial record exists although the Document's status is not
`verified`. -/
theorem C1_unverified_receipt_expense_exists :
    ∃ e ∈ ExpensesPage.expenses, e.hasReceipt = true ∧ e.verified = false ∧
      ∃ p ∈ VerificationPage.pendingItems,
        p.extractedData.merchant = some e.merchant ∧
        p.extractedData.amount = some e.amount :=
  ⟨ExpensesPage.shellExpense, by simp [ExpensesPage.expenses], rfl, rfl,
   VerificationPage.gasPendingItem, by simp [VerificationPage.pendingItems],
   rfl, rfl⟩

/-- C1 amended: the financial-record ids are pairwise distinct (at most one
record per id), but record existence is not tied to Document verification:
the implemented data holds a receipt-backed expense with
`verified = false`. -/
theorem C1_amended_record_existence_not_tied_to_verified :
    (ExpensesPage.expenses.map (·.id)).Nodup ∧
    ∃ e ∈ ExpensesPage.expenses, e.hasReceipt = true ∧ e.verified = false :=
  ⟨by decide, ExpensesPage.shellExpense, by simp [ExpensesPage.expenses],
   rfl, rfl⟩

/-- C2 (modelled from the spec, the Pipeline Orchestrator being unbuilt):
when the global confidence is below the reupload threshold, extraction
routing always yields `needs_reextraction` and never `pending_verification`
or `verified`. -/
theorem C2_below_reupload_threshold_routes_to_reextraction
    (reuploadThreshold autoTrustThreshold conf : ℚ)
    (h : conf < reuploadThreshold) :
    (Pipeline.routeAfterExtraction reuploadThreshold autoTrustThreshold conf).1
        = Pipeline.DocStatus.needsReextraction ∧
    (Pipeline.routeAfterExtraction reuploadThreshold autoTrustThreshold conf).1
        ≠ Pipeline.DocStatus.pendingVerification ∧
    (Pipeline.routeAfterExtraction reuploadThreshold autoTrustThreshold conf).1
        ≠ Pipeline.DocStatus.verified := by
  simp [Pipeline.routeAfterExtraction, if_pos h]

/-- C2 witness: the spec's example values — confidence 0.45 against the 0.60
reupload threshold (auto-trust 0.85) — route to `needs_reextraction`. -/
theorem C2_below_reupload_threshold_witness :
    (0.45 : ℚ) < 0.60 ∧
    ((Pipeline.routeAfterExtraction 0.60 0.85 0.45).1
        = Pipeline.DocStatus.needsReextraction ∧
     (Pipeline.routeAfterExtraction 0.60 0.85 0.45).1
        ≠ Pipeline.DocStatus.pendingVerification ∧
     (Pipeline.routeAfterExtraction 0.60 0.85 0.45).1
        ≠ Pipeline.DocStatus.verified) :=
  ⟨by norm_num,
   C2_below_reupload_threshold_routes_to_reextraction 0.60 0.85 0.45 (by norm_num)⟩

/-- C3 counterexample: submitting the same approve payload twice — approve
item 0, navigate back (which restores the identical form data), approve
again — yields `ok` on the second submission, not a `ConcurrencyConflict`,
and neither submission materializes any financial record; submissions are
silently accepted, never rejected. -/
theorem C3_repeat_approval_yields_no_conflict :
    (handlePreviousState
        (handleApprove initialVerifState).state).formData
      = initialVerifState.formData ∧
    (handleApprove (handlePreviousState
        (handleApprove initialVerifState).state)).outcome
      = SubmitOutcome.ok ∧
    (handleApprove (handlePreviousState
        (handleApprove initialVerifState).state)).outcome
      ≠ SubmitOutcome.concurrencyConflict ∧
    (handleApprove initialVerifState).materialized = none ∧
    (handleApprove (handlePreviousState
        (handleApprove initialVerifState).state)).materialized = none :=
  ⟨rfl, rfl, by decide, rfl, rfl⟩

/-- C3 amended: on the implemented verification page, every approve and
reject submission succeeds unconditionally — the handlers check no Document
state, signal no error of any kind (so no duplicate record can arise, but no
ConcurrencyConflict is ever surfaced either), and materialize no financial
record. -/
theorem C3_amended_submissions_never_error (s : VerifState) :
    (handleApprove s).outcome = SubmitOutcome.ok ∧
    (handleApprove s).materialized = none ∧
    (handleReject s).outcome = SubmitOutcome.ok ∧
    (handleReject s).materialized = none :=
  ⟨rfl, rfl, rfl, rfl⟩

/-- C4 counterexample: an approval whose form data has no amount at all is
accepted (`ok`), not rejected with a validation error, and no financial
record is created by it. -/
theorem C4_missing_amount_approval_accepted :
    ({} : ExtractedData).amount = none ∧
    (handleApprove { currentItem := 0, formData := {} }).outcome
      = SubmitOutcome.ok ∧
    (handleApprove { currentItem := 0, formData := {} }).outcome
      ≠ SubmitOutcome.validationError ∧
    (handleApprove { currentItem := 0, formData := {} }).materialized = none :=
  ⟨rfl, rfl, by decide, rfl⟩

/-- C4 amended: the implemented approval path performs no validation at all:
whatever the corrected form data (including a missing amount), the submission
is never rejected with a validation error, no financial record is created,
and the only state change is the navigation to the next queue item (the
static pending list itself is never mutated). -/
theorem C4_amended_no_validation_on_approval (s : VerifState) :
    (handleApprove s).outcome ≠ SubmitOutcome.validationError ∧
    (handleApprove s).materialized = none ∧
    (handleApprove s).state = handleNextState s := by
  refine ⟨?_, rfl, rfl⟩
  intro h
  exact SubmitOutcome.noConfusion h

/-- C5 counterexample: the verification queue listing is the fixed order
87, 75, 92, which is not ascending by confidence (87 precedes 75), and the
queue is not the set of `pending_verification` Documents — it even lists a
document shown as `completed` on the upload page. -/
theorem C5_queue_not_confidence_ascending :
    ¬ (VerificationPage.pendingItems.map (·.confidence)).Sorted (· ≤ ·) ∧
    ∃ u ∈ UploadPage.uploadedFiles, ∃ p ∈ VerificationPage.pendingItems,
      u.name = p.filename ∧ u.status = "completed" :=
  ⟨by decide, UploadPage.groceryUpload, by simp [UploadPage.uploadedFiles],
   VerificationPage.groceryPendingItem, by simp [VerificationPage.pendingItems],
   rfl, rfl⟩

/-- C5 amended: the implemented queue is a hard-coded three-item list in
upload order with confidences 87, 75, 92; it offers no confidence ordering
(the listing is not sorted ascending), and it is not derived from Document
statuses — no exposed document status is `pending_verification`, and one
queue entry corresponds to an upload shown as `completed`. -/
theorem C5_amended_queue_is_fixed_unsorted_list :
    VerificationPage.pendingItems.map (·.confidence) = [87, 75, 92] ∧
    ¬ (VerificationPage.pendingItems.map (·.confidence)).Sorted (· ≤ ·) ∧
    (∀ u ∈ UploadPage.uploadedFiles, u.status ≠ "pending_verification") ∧
    ∃ u ∈ UploadPage.uploadedFiles, ∃ p ∈ VerificationPage.pendingItems,
      u.name = p.filename ∧ u.status = "completed" := by
  refine ⟨rfl, by decide, ?_, ?_⟩
  · intro u hu
    simp only [UploadPage.uploadedFiles, List.mem_cons,
      List.not_mem_nil, or_false] at hu
    rcases hu with rfl | rfl | rfl <;> decide
  · exact ⟨UploadPage.groceryUpload, by simp [UploadPage.uploadedFiles],
      VerificationPage.groceryPendingItem,
      by simp [VerificationPage.pendingItems], rfl, rfl⟩

/-- C5 witness: the first queue entry concretely instantiates the universal
part — `grocery_receipt_20250806.jpg` is listed on the upload page with
status `completed`, not `pending_verification`. -/
theorem C5_amended_queue_witness :
    UploadPage.groceryUpload ∈ UploadPage.uploadedFiles ∧
    UploadPage.groceryUpload.status ≠ "pending_verification" :=
  ⟨by simp [UploadPage.uploadedFiles],
   C5_amended_queue_is_fixed_unsorted_list.2.2.1 UploadPage.groceryUpload
     (by simp [UploadPage.uploadedFiles])⟩

/-- C6 counterexample: the verification queue stores a confidence of 87 for
its first entry — a non-null confidence outside the closed interval 0.0–1.0,
so stored confidences are not normalized. -/
theorem C6_confidence_outside_unit_interval :
    ∃ p ∈ VerificationPage.pendingItems,
      ¬ (0 ≤ p.confidence ∧ p.confidence ≤ 1) :=
  ⟨VerificationPage.groceryPendingItem,
   by simp [VerificationPage.pendingItems],
   by norm_num [VerificationPage.groceryPendingItem]⟩

/-- C6 amended: confidences stored on the mocked pages are nullable
percentages — every non-null value lies in 0–100 — while the typed
`Document.ocr_confidence` is displayed as `round(c * 100)%`, which maps a
normalized 0.0–1.0 value into 0–100; the 0.0–1.0 range is thus respected
only by the `Document` display path, not by the page-level mock stores. -/
theorem C6_amended_percent_scale_confidences :
    (∀ p ∈ VerificationPage.pendingItems,
        0 ≤ p.confidence ∧ p.confidence ≤ 100) ∧
    (∀ u ∈ UploadPage.uploadedFiles,
        u.confidence.elim True (fun c => 0 ≤ c ∧ c ≤ 100)) ∧
    (∀ c : ℚ, 0 ≤ c → c ≤ 1 →
        0 ≤ UploadPage.displayOcrConfidencePercent c ∧
        UploadPage.displayOcrConfidencePercent c ≤ 100) := by
  refine ⟨?_, ?_, ?_⟩
  · intro p hp
    simp only [VerificationPage.pendingItems, List.mem_cons,
      List.not_mem_nil, or_false] at hp
    rcases hp with rfl | rfl | rfl <;>
      norm_num [VerificationPage.groceryPendingItem,
        VerificationPage.gasPendingItem, VerificationPage.payslipPendingItem]
  · intro u hu
    simp only [UploadPage.uploadedFiles, List.mem_cons,
      List.not_mem_nil, or_false] at hu
    rcases hu with rfl | rfl | rfl <;>
      norm_num [UploadPage.groceryUpload, UploadPage.gasUpload,
        UploadPage.payslipUpload, Option.elim]
  · intro c h0 h1
    unfold UploadPage.displayOcrConfidencePercent
    constructor
    · rw [round_eq]
      have h2 : (0 : ℚ) ≤ c * 100 + 1 / 2 := by linarith
      exact_mod_cast Int.floor_nonneg.2 h2
    · have h3 : round (c * 100) < 101 := by
        rw [round_eq]
        refine Int.floor_lt.2 ?_
        push_cast
        linarith
      omega

/-- C6 witness: the display of a stored 0.87 confidence is 87%, inside
0–100. -/
theorem C6_amended_percent_scale_witness :
    (0 : ℚ) ≤ 0.87 ∧ (0.87 : ℚ) ≤ 1 ∧
    (0 ≤ UploadPage.displayOcrConfidencePercent 0.87 ∧
     UploadPage.displayOcrConfidencePercent 0.87 ≤ 100) :=
  ⟨by norm_num, by norm_num,
   C6_amended_percent_scale_confidences.2.2 0.87 (by norm_num) (by norm_num)⟩

end ExpenseTracking
